import Mathlib

/-!
Verification of the STUN-based ICE candidate gathering port described in
`spec.md`, against the behaviours pinned by
`src/third_party/libwebrtc/p2p/base/stun_port_unittest.cc`.

The repository ships only the unit tests of the port implementation
(`p2p/base/stun_port.cc` itself is not part of the sources), so the port
state machine, the candidate deduplicator and the keepalive scheduler are
modelled from the specification; every such definition carries a
`Modelled from the spec:` doc comment.  Concrete constants (local and
server addresses, priorities, lifetimes) are embedded from the unit-test
source, which is part of the repository.
-/

namespace StunModel

/-- Address family of a socket address (`AF_INET` / `AF_INET6`). -/
inductive Fam where
  | v4
  | v6
deriving DecidableEq, Repr

/-- A socket address: family, textual host, and port, mirroring
`rtc::SocketAddress` as used in the unit tests. -/
structure SocketAddr where
  fam : Fam
  host : String
  port : Nat
deriving DecidableEq, Repr

/-- IP-equality of two socket addresses (`rtc::SocketAddress::EqualIPs`):
same family and same host, ports ignored. -/
def ipEq (a b : SocketAddr) : Bool :=
  a.fam == b.fam && a.host == b.host

/-- Candidate type: host (local) or server-reflexive. -/
inductive CandidateType where
  | host
  | srflx
deriving DecidableEq, Repr

/-- An ICE candidate as published by the port (spec section 3:
type, address, priority, related server URL). -/
structure Candidate where
  ctype : CandidateType
  addr : SocketAddr
  priority : Nat
  url : String
deriving DecidableEq, Repr

/-- An error event (spec section 3: numeric error code, human-readable
text, offending server URL, local address as a redacted string). -/
structure ErrorEvent where
  error_code : Nat
  error_text : String
  address : String
  url : String
deriving DecidableEq, Repr

/-- Modelled from the spec: `STUN_ERROR_SERVER_NOT_REACHABLE`, the error
code surfaced when a transaction's total timeout elapses with no valid
response (the constant lives in `p2p/base/stun_port.h`, outside `src/`;
its concrete numeric value in the upstream header is 701). -/
def STUN_ERROR_SERVER_NOT_REACHABLE : Nat := 701

/-- Modelled from the spec: `SocketAddress::HostAsSensitiveURIString`, the
redacted form of a local address carried by error events ("never expose
raw local address verbatim").  The final dot-separated octet (IPv4) or
colon-separated group (IPv6) is replaced by the letter x. -/
def hostAsSensitiveURIString (a : SocketAddr) : String :=
  let sep : Char := match a.fam with
    | .v4 => '.'
    | .v6 => ':'
  let kept := (a.host.toList.reverse.dropWhile (fun c => c != sep)).reverse
  String.mk kept ++ "x"

/-- The canonical server URL `stun:<host-or-ip>:<port>` (spec section 6;
IPv6 hosts rendered without bracket decoration). -/
def serverUrlOf (host : String) (port : Nat) : String :=
  "stun:" ++ host ++ ":" ++ toString port

/-- One configured STUN server: a literal socket address or a hostname. -/
inductive ServerSpec where
  | literal (addr : SocketAddr)
  | hostname (name : String) (port : Nat)
deriving DecidableEq, Repr

/-- The canonical URL of a configured server. -/
def ServerSpec.url : ServerSpec → String
  | .literal a => serverUrlOf a.host a.port
  | .hostname n p => serverUrlOf n p

/-- The environment's verdict for one server: reachable with a mapped
address, unreachable (total timeout elapses), or DNS resolution failure. -/
inductive ServerOutcome where
  | reachable (mapped : SocketAddr)
  | unreachable
  | resolveFailure
deriving DecidableEq, Repr

/-- Modelled from the spec: `cricket::kMaxTurnServers` (declared in
`p2p/base/port.h`, outside `src/`; upstream value 32), used by the
`WebRTC-IncreaseIceCandidatePriorityHostSrflx` priority adjustment. -/
def kMaxTurnServers : Nat := 32

/-- Modelled from the spec: the local preference used in candidate
priority computation, pinned by the unit-test constants: 30 for an IPv4
local address, 60 for the loopback IPv6 local address
(`kStunCandidatePriority` / `kIPv6StunCandidatePriority`). -/
def localPreference (a : SocketAddr) : Nat :=
  match a.fam with
  | .v4 => 30
  | .v6 => 60

/-- RFC 8445 candidate priority: `(typePref << 24) | (localPref << 8) |
(256 - component)`. -/
def candidatePriority (typePref localPref component : Nat) : Nat :=
  (typePref <<< 24) ||| (localPref <<< 8) ||| (256 - component)

/-- Configuration of one gathering run: local bound address, whether mDNS
obfuscation is active, whether the port shares a socket (and hence owns a
host candidate), the priority field trial, the configured total
per-transaction timeout, and the configured servers with the
environment's verdict for each. -/
structure PortConfig where
  localAddr : SocketAddr
  mdnsEnabled : Bool
  sharedSocket : Bool
  priorityAdjustTrial : Bool
  totalTimeout : Nat
  servers : List (ServerSpec × ServerOutcome)
deriving Repr

/-- The priority of a server-reflexive candidate published by this port:
type preference 100, component 1, increased by `kMaxTurnServers << 8`
when the `WebRTC-IncreaseIceCandidatePriorityHostSrflx` trial is on. -/
def srflxPriority (cfg : PortConfig) : Nat :=
  candidatePriority 100 (localPreference cfg.localAddr) 1
    + (if cfg.priorityAdjustTrial then kMaxTurnServers <<< 8 else 0)

/-- The host candidate of a shared-socket port (type preference 126). -/
def hostCandidate (a : SocketAddr) : Candidate :=
  { ctype := .host
    addr := a
    priority := candidatePriority 126 (localPreference a) 1
    url := "" }

/-- A freshly constructed server-reflexive candidate. -/
def mkSrflxCandidate (cfg : PortConfig) (mapped : SocketAddr) (url : String) :
    Candidate :=
  { ctype := .srflx, addr := mapped, priority := srflxPriority cfg, url := url }

/-- Modelled from the spec: the Candidate Deduplicator (spec section 4.3).
A mapped address is discarded when it is IP-equal to an already published
server-reflexive candidate (value-based dedup across servers), or when
mDNS obfuscation is inactive and it is IP-equal to a published host
candidate. -/
def dedupDiscards (mdnsEnabled : Bool) (cands : List Candidate)
    (mapped : SocketAddr) : Bool :=
  cands.any (fun c => c.ctype == .srflx && ipEq c.addr mapped)
    || (!mdnsEnabled
        && cands.any (fun c => c.ctype == .host && ipEq c.addr mapped))

/-- Modelled from the spec: handling of a validated STUN Binding Response
carrying a mapped address (spec section 4.2, `Gathering -> Done`): the
candidate passes through the Deduplicator and, if novel, is appended. -/
def onBindingSuccess (cfg : PortConfig) (cands : List Candidate)
    (mapped : SocketAddr) (url : String) : List Candidate :=
  if dedupDiscards cfg.mdnsEnabled cands mapped then cands
  else cands ++ [mkSrflxCandidate cfg mapped url]

/-- Modelled from the spec: the error event built when a server is
unreachable (total timeout) or its hostname fails to resolve — both are
surfaced with the same code (spec section 7), a redacted local address
and the server's canonical URL. -/
def mkUnreachableEvent (cfg : PortConfig) (url : String) : ErrorEvent :=
  { error_code := STUN_ERROR_SERVER_NOT_REACHABLE
    error_text := "stun binding request timed out."
    address := hostAsSensitiveURIString cfg.localAddr
    url := url }

/-- Accumulator threaded through the per-server processing. -/
structure GatherAcc where
  candidates : List Candidate
  errorEvents : List ErrorEvent
  resolveRequests : List (String × Fam)
  doneTime : Nat
deriving Repr

/-- Modelled from the spec: per-server behaviour of the Port State Machine
(spec sections 4.1-4.2, 7).  A literal server of a mismatching address
family degrades silently (no candidate, no error event); a hostname first
issues exactly one DNS resolution request for the local family; a
reachable server's mapped address goes through the Deduplicator; an
unreachable or unresolvable server produces a `ServerNotReachable`
event, reaching its terminal state at the configured total timeout. -/
def processServer (cfg : PortConfig) (acc : GatherAcc) :
    ServerSpec × ServerOutcome → GatherAcc
  | (.literal a, out) =>
    if a.fam == cfg.localAddr.fam then
      match out with
      | .reachable m =>
        { acc with
          candidates := onBindingSuccess cfg acc.candidates m
            (serverUrlOf a.host a.port) }
      | _ =>
        { acc with
          errorEvents := acc.errorEvents
            ++ [mkUnreachableEvent cfg (serverUrlOf a.host a.port)]
          doneTime := max acc.doneTime cfg.totalTimeout }
    else
      acc
  | (.hostname n p, out) =>
    let acc1 : GatherAcc :=
      { acc with
        resolveRequests := acc.resolveRequests ++ [(n, cfg.localAddr.fam)] }
    match out with
    | .reachable m =>
      if m.fam == cfg.localAddr.fam then
        { acc1 with
          candidates := onBindingSuccess cfg acc1.candidates m
            (serverUrlOf n p) }
      else
        { acc1 with
          errorEvents := acc1.errorEvents
            ++ [mkUnreachableEvent cfg (serverUrlOf n p)]
          doneTime := max acc1.doneTime cfg.totalTimeout }
    | _ =>
      { acc1 with
        errorEvents := acc1.errorEvents
          ++ [mkUnreachableEvent cfg (serverUrlOf n p)]
        doneTime := max acc1.doneTime cfg.totalTimeout }

/-- The externally observable outcome of one gathering run. -/
structure GatherResult where
  candidates : List Candidate
  errorEvents : List ErrorEvent
  resolveRequests : List (String × Fam)
  doneTime : Nat
  done : Bool
  error : Bool
deriving Repr

/-- Modelled from the spec: the whole gathering run of the Port State
Machine.  A shared-socket port starts with its host candidate; every
configured server is driven to a terminal state; the port is done once
all servers are terminal, and reports overall failure exactly when no
candidate at all was produced (spec section 4.2, aggregate completion). -/
def gather (cfg : PortConfig) : GatherResult :=
  let init : GatherAcc :=
    { candidates := if cfg.sharedSocket then [hostCandidate cfg.localAddr] else []
      errorEvents := []
      resolveRequests := []
      doneTime := 0 }
  let acc := cfg.servers.foldl (processServer cfg) init
  { candidates := acc.candidates
    errorEvents := acc.errorEvents
    resolveRequests := acc.resolveRequests
    doneTime := acc.doneTime
    done := true
    error := acc.candidates.isEmpty }

/-- The error code a test observer reads after gathering: the code of the
first delivered error event, or 0 when no event was delivered (the
observer's `IceCandidateErrorEvent` field is default-initialised). -/
def observedErrorCode (r : GatherResult) : Nat :=
  (r.errorEvents.head?.map ErrorEvent.error_code).getD 0

/-- Modelled from the spec: a successful keepalive Binding Response after
gathering is handled by the same success path, hence passes through the
Deduplicator; `keepaliveRounds` applies `n` such responses, each carrying
the server's (unchanged) mapped address. -/
def keepaliveRounds (cfg : PortConfig) (mapped : SocketAddr) (url : String)
    (cands : List Candidate) : Nat → List Candidate
  | 0 => cands
  | n + 1 => onBindingSuccess cfg (keepaliveRounds cfg mapped url cands n) mapped url

/-- Network adapter types relevant to keepalive lifetime selection. -/
inductive AdapterType where
  | unknown
  | ethernet
  | wifi
  | cellular
  | loopback
deriving DecidableEq, Repr

/-- Modelled from the spec: cost classification of a network —
cellular/metered networks are high-cost, all others low-cost. -/
def isHighCostNetwork : AdapterType → Bool
  | .cellular => true
  | _ => false

/-- Unbounded ("infinite") keepalive lifetime, from the unit test. -/
def kInfiniteLifetime : Int := -1

/-- Bounded high-cost keepalive lifetime (2 minutes), from the unit test. -/
def kHighCostPortKeepaliveLifetimeMs : Int := 2 * 60 * 1000

/-- Modelled from the spec: default keepalive lifetime by network cost
classification (spec section 4.4). -/
def defaultStunKeepaliveLifetime (t : AdapterType) : Int :=
  if isHighCostNetwork t then kHighCostPortKeepaliveLifetimeMs
  else kInfiniteLifetime

/-- The mutable network classification of a live port. -/
structure PortNetworkState where
  networkType : AdapterType
deriving DecidableEq, Repr

/-- Switch the network classification without recreating the port. -/
def setNetworkType (_p : PortNetworkState) (t : AdapterType) :
    PortNetworkState :=
  { networkType := t }

/-- Modelled from the spec: the effective `stun_keepalive_lifetime()` is
recomputed from the port's current network classification whenever it is
read (spec section 4.4: changing the classification at runtime
immediately recomputes the effective lifetime). -/
def stunKeepaliveLifetime (p : PortNetworkState) : Int :=
  defaultStunKeepaliveLifetime p.networkType

/-- Modelled from the spec: the Keepalive Scheduler's arming decision
(spec section 4.4): with an unbounded (negative) lifetime a Binding
Request is always kept pending; with a finite lifetime, requests stop
being armed once the elapsed time since gathering completed exhausts the
budget.  This is `HasPendingRequest(STUN_BINDING_REQUEST)` as the tests
observe it. -/
def hasPendingBindingRequest (lifetime : Int) (elapsedMs : Nat) : Bool :=
  if lifetime < 0 then true
  else decide ((elapsedMs : Int) ≤ lifetime)

/-- Modelled from the spec: exhausting the keepalive lifetime budget is
not an error — the scheduler has no error path at all (spec section 4.4:
"observable as the absence of a pending Binding Request after the
deadline, not as an error"). -/
def keepaliveSchedulerRaisesError (_lifetime : Int) (_elapsedMs : Nat) : Bool :=
  false

/- Concrete fixtures embedded from the unit-test source
(`stun_port_unittest.cc`, lines 40-60). -/

/-- `kLocalAddr`: the IPv4 local address `127.0.0.1:0`. -/
def kLocalAddr : SocketAddr := ⟨.v4, "127.0.0.1", 0⟩

/-- `kIPv6LocalAddr`: the IPv6 local address `::1:0`. -/
def kIPv6LocalAddr : SocketAddr := ⟨.v6, "::1", 0⟩

/-- `kStunAddr1`: `127.0.0.1:5000`. -/
def kStunAddr1 : SocketAddr := ⟨.v4, "127.0.0.1", 5000⟩

/-- `kStunAddr2`: `127.0.0.1:4000`. -/
def kStunAddr2 : SocketAddr := ⟨.v4, "127.0.0.1", 4000⟩

/-- `kBadAddr`: the unreachable `0.0.0.1:5000`. -/
def kBadAddr : SocketAddr := ⟨.v4, "0.0.0.1", 5000⟩

/-- `kIPv6BadAddr`: the unreachable `::ffff:0:1:5000`. -/
def kIPv6BadAddr : SocketAddr := ⟨.v6, "::ffff:0:1", 5000⟩

/-- `kIPv6StunAddr1`: `::1:5000`. -/
def kIPv6StunAddr1 : SocketAddr := ⟨.v6, "::1", 5000⟩

/-- `kStunCandidatePriority` from the unit test:
`(100 << 24) | (30 << 8) | (256 - 1)`. -/
def kStunCandidatePriority : Nat := (100 <<< 24) ||| (30 <<< 8) ||| (256 - 1)

/-- `kIPv6StunCandidatePriority` from the unit test:
`(100 << 24) | (60 << 8) | (256 - 1)`. -/
def kIPv6StunCandidatePriority : Nat :=
  (100 <<< 24) ||| (60 <<< 8) ||| (256 - 1)

/-- A non-shared STUN port configuration with two literal servers. -/
def twoServerCfg (localA s1 s2 : SocketAddr) (o1 o2 : ServerOutcome)
    (timeout : Nat) : PortConfig :=
  { localAddr := localA
    mdnsEnabled := false
    sharedSocket := false
    priorityAdjustTrial := false
    totalTimeout := timeout
    servers := [(.literal s1, o1), (.literal s2, o2)] }

/-- A non-shared STUN port configuration with one literal server. -/
def oneServerCfg (localA s : SocketAddr) (o : ServerOutcome)
    (timeout : Nat) : PortConfig :=
  { localAddr := localA
    mdnsEnabled := false
    sharedSocket := false
    priorityAdjustTrial := false
    totalTimeout := timeout
    servers := [(.literal s, o)] }

/-- A shared-socket port configuration with one literal server. -/
def sharedCfg (localA s : SocketAddr) (o : ServerOutcome)
    (mdns : Bool) (timeout : Nat) : PortConfig :=
  { localAddr := localA
    mdnsEnabled := mdns
    sharedSocket := true
    priorityAdjustTrial := false
    totalTimeout := timeout
    servers := [(.literal s, o)] }

/-- A non-shared STUN port configuration with one hostname server. -/
def hostnameCfg (localA : SocketAddr) (n : String) (p : Nat)
    (o : ServerOutcome) (trial : Bool) (timeout : Nat) : PortConfig :=
  { localAddr := localA
    mdnsEnabled := false
    sharedSocket := false
    priorityAdjustTrial := trial
    totalTimeout := timeout
    servers := [(.hostname n p, o)] }

/-! ## Helper lemmas -/

theorem ipEq_self (a : SocketAddr) : ipEq a a = true := by
  simp [ipEq]

theorem keepaliveRounds_of_discard (cfg : PortConfig) (m : SocketAddr)
    (url : String) (cands : List Candidate)
    (h : dedupDiscards cfg.mdnsEnabled cands m = true) :
    ∀ n, keepaliveRounds cfg m url cands n = cands := by
  intro n
  induction n with
  | zero => rfl
  | succ k ih => simp [keepaliveRounds, ih, onBindingSuccess, h]

/-! ## Claims -/

/-- C1: for a port with two STUN servers, candidate publication
deduplicates by mapped-address value: identical mapped addresses yield
exactly one candidate, distinct mapped addresses yield exactly two. -/
theorem C1_two_server_candidate_dedup
    (localA s1 s2 m1 m2 : SocketAddr) (timeout : Nat)
    (h1 : s1.fam = localA.fam) (h2 : s2.fam = localA.fam) :
    (ipEq m1 m2 = true →
      (gather (twoServerCfg localA s1 s2 (.reachable m1) (.reachable m2)
        timeout)).candidates.length = 1)
    ∧ (ipEq m1 m2 = false →
      (gather (twoServerCfg localA s1 s2 (.reachable m1) (.reachable m2)
        timeout)).candidates.length = 2) := by
  constructor <;> intro hm <;>
    simp [gather, twoServerCfg, processServer, h1, h2, onBindingSuccess,
      dedupDiscards, mkSrflxCandidate, hm]

/-- C1 witness: with the unit test's two servers, equal mapped addresses
(both behind the same NAT) publish one candidate; the mapped addresses
`77.77.77.77` and `88.77.77.77` publish two. -/
theorem C1_two_server_candidate_dedup_witness :
    (gather (twoServerCfg kLocalAddr kStunAddr1 kStunAddr2
        (.reachable ⟨.v4, "127.0.0.1", 0⟩) (.reachable ⟨.v4, "127.0.0.1", 0⟩)
        9500)).candidates.length = 1
    ∧ (gather (twoServerCfg kLocalAddr kStunAddr1 kStunAddr2
        (.reachable ⟨.v4, "77.77.77.77", 0⟩)
        (.reachable ⟨.v4, "88.77.77.77", 0⟩) 9500)).candidates.length = 2 :=
  ⟨(C1_two_server_candidate_dedup kLocalAddr kStunAddr1 kStunAddr2
      ⟨.v4, "127.0.0.1", 0⟩ ⟨.v4, "127.0.0.1", 0⟩ 9500 rfl rfl).1 (by decide),
   (C1_two_server_candidate_dedup kLocalAddr kStunAddr1 kStunAddr2
      ⟨.v4, "77.77.77.77", 0⟩ ⟨.v4, "88.77.77.77", 0⟩ 9500 rfl rfl).2
      (by decide)⟩

/-- C2: on a shared-socket port whose server-reflexive mapped address is
IP-equal to the host candidate, mDNS obfuscation disabled publishes
exactly the host candidate, while mDNS obfuscation enabled publishes two
candidates of types host and srflx, both with the local IP. -/
theorem C2_shared_socket_mdns_dedup
    (localA s m : SocketAddr) (timeout : Nat)
    (hs : s.fam = localA.fam) (hm : ipEq localA m = true) :
    ((gather (sharedCfg localA s (.reachable m) false timeout)).candidates.map
        Candidate.ctype = [.host])
    ∧ ((gather (sharedCfg localA s (.reachable m) true timeout)).candidates.map
        Candidate.ctype = [.host, .srflx])
    ∧ ((gather (sharedCfg localA s (.reachable m) true
        timeout)).candidates.all (fun c => ipEq localA c.addr) = true) := by
  refine ⟨?_, ?_, ?_⟩ <;>
    simp [gather, sharedCfg, processServer, hs, onBindingSuccess,
      dedupDiscards, mkSrflxCandidate, hostCandidate, hm, ipEq_self]

/-- C2 witness: local `127.0.0.1` with a server mapping the port back to
`127.0.0.1`, as in the shared-socket unit tests. -/
theorem C2_shared_socket_mdns_dedup_witness :
    ((gather (sharedCfg kLocalAddr kStunAddr1
        (.reachable ⟨.v4, "127.0.0.1", 2000⟩) false 9500)).candidates.map
        Candidate.ctype = [.host])
    ∧ ((gather (sharedCfg kLocalAddr kStunAddr1
        (.reachable ⟨.v4, "127.0.0.1", 2000⟩) true 9500)).candidates.map
        Candidate.ctype = [.host, .srflx])
    ∧ ((gather (sharedCfg kLocalAddr kStunAddr1
        (.reachable ⟨.v4, "127.0.0.1", 2000⟩) true 9500)).candidates.all
        (fun c => ipEq kLocalAddr c.addr) = true) :=
  C2_shared_socket_mdns_dedup kLocalAddr kStunAddr1
    ⟨.v4, "127.0.0.1", 2000⟩ 9500 rfl (by decide)

/-- C3: one unreachable STUN server: gathering reaches done with
`error()==true`, zero candidates, within the configured total timeout,
and delivers one error event with code `ServerNotReachable`, the
redacted (sensitive-URI) local address rather than the raw one, and the
canonical `stun:<host-or-ip>:<port>` URL. -/
theorem C3_unreachable_server_error_event
    (localA s : SocketAddr) (timeout : Nat)
    (hs : s.fam = localA.fam)
    (hred : hostAsSensitiveURIString localA ≠ localA.host) :
    (gather (oneServerCfg localA s .unreachable timeout)).done = true
    ∧ (gather (oneServerCfg localA s .unreachable timeout)).error = true
    ∧ (gather (oneServerCfg localA s .unreachable timeout)).candidates = []
    ∧ (gather (oneServerCfg localA s .unreachable timeout)).doneTime ≤ timeout
    ∧ (gather (oneServerCfg localA s .unreachable timeout)).errorEvents.map
        ErrorEvent.error_code = [STUN_ERROR_SERVER_NOT_REACHABLE]
    ∧ (gather (oneServerCfg localA s .unreachable timeout)).errorEvents.map
        ErrorEvent.address = [hostAsSensitiveURIString localA]
    ∧ (∀ e ∈ (gather (oneServerCfg localA s .unreachable timeout)).errorEvents,
        e.address ≠ localA.host)
    ∧ (gather (oneServerCfg localA s .unreachable timeout)).errorEvents.map
        ErrorEvent.url = [serverUrlOf s.host s.port] := by
  refine ⟨?_, ?_, ?_, ?_, ?_, ?_, ?_, ?_⟩ <;>
    simp [gather, oneServerCfg, processServer, hs, mkUnreachableEvent, hred]

/-- C3 witness: the unit tests' unreachable `0.0.0.1:5000` with local
`127.0.0.1` and the unreachable `::ffff:0:1:5000` with local `::1`
(IPv6 URL rendered without brackets). -/
theorem C3_unreachable_server_error_event_witness :
    ((gather (oneServerCfg kLocalAddr kBadAddr .unreachable 9500)).error = true
      ∧ (gather (oneServerCfg kLocalAddr kBadAddr .unreachable
          9500)).errorEvents.map ErrorEvent.url = [serverUrlOf "0.0.0.1" 5000])
    ∧ ((gather (oneServerCfg kIPv6LocalAddr kIPv6BadAddr .unreachable
          9500)).errorEvents.map ErrorEvent.url
        = [serverUrlOf "::ffff:0:1" 5000]) :=
  ⟨⟨(C3_unreachable_server_error_event kLocalAddr kBadAddr 9500 rfl
        (by decide)).2.1,
    (C3_unreachable_server_error_event kLocalAddr kBadAddr 9500 rfl
        (by decide)).2.2.2.2.2.2.2⟩,
   (C3_unreachable_server_error_event kIPv6LocalAddr kIPv6BadAddr 9500 rfl
        (by decide)).2.2.2.2.2.2.2⟩

/-- C4: a server whose address family differs from the local bound
address family degrades silently: done with `error()==true`, zero
candidates, no error event, and an observed error code of 0. -/
theorem C4_family_mismatch_silent
    (localA s : SocketAddr) (o : ServerOutcome) (timeout : Nat)
    (hs : s.fam ≠ localA.fam) :
    (gather (oneServerCfg localA s o timeout)).done = true
    ∧ (gather (oneServerCfg localA s o timeout)).error = true
    ∧ (gather (oneServerCfg localA s o timeout)).candidates = []
    ∧ (gather (oneServerCfg localA s o timeout)).errorEvents = []
    ∧ observedErrorCode (gather (oneServerCfg localA s o timeout)) = 0 := by
  refine ⟨?_, ?_, ?_, ?_, ?_⟩ <;>
    simp [gather, oneServerCfg, processServer, hs, observedErrorCode]

/-- C4 witness: IPv4 local with the IPv6 server `::1:5000`, and IPv6
local with the IPv4 server `127.0.0.1:5000`, as in the unit tests. -/
theorem C4_family_mismatch_silent_witness :
    (observedErrorCode (gather (oneServerCfg kLocalAddr kIPv6StunAddr1
        .unreachable 9500)) = 0
      ∧ (gather (oneServerCfg kLocalAddr kIPv6StunAddr1 .unreachable
          9500)).errorEvents = [])
    ∧ (observedErrorCode (gather (oneServerCfg kIPv6LocalAddr kStunAddr1
        .unreachable 9500)) = 0) :=
  ⟨⟨(C4_family_mismatch_silent kLocalAddr kIPv6StunAddr1 .unreachable 9500
        (by decide)).2.2.2.2,
    (C4_family_mismatch_silent kLocalAddr kIPv6StunAddr1 .unreachable 9500
        (by decide)).2.2.2.1⟩,
   (C4_family_mismatch_silent kIPv6LocalAddr kStunAddr1 .unreachable 9500
        (by decide)).2.2.2.2⟩

/-- C5: with one reachable and one unreachable server, the failure does
not abort the sibling transaction: gathering completes with exactly the
candidate of the reachable server (in either configuration order), the
error event carries the unreachable server's URL, the port reports
overall success, and completion waits for the unreachable server's
terminal state at the total timeout. -/
theorem C5_bad_server_does_not_abort_sibling
    (localA s1 s2 m1 : SocketAddr) (timeout : Nat)
    (h1 : s1.fam = localA.fam) (h2 : s2.fam = localA.fam) :
    (gather (twoServerCfg localA s1 s2 (.reachable m1) .unreachable
        timeout)).candidates.map Candidate.addr = [m1]
    ∧ (gather (twoServerCfg localA s1 s2 (.reachable m1) .unreachable
        timeout)).errorEvents.map ErrorEvent.url
      = [serverUrlOf s2.host s2.port]
    ∧ (gather (twoServerCfg localA s1 s2 (.reachable m1) .unreachable
        timeout)).error = false
    ∧ (gather (twoServerCfg localA s1 s2 (.reachable m1) .unreachable
        timeout)).done = true
    ∧ (gather (twoServerCfg localA s1 s2 (.reachable m1) .unreachable
        timeout)).doneTime = timeout
    ∧ (gather (twoServerCfg localA s2 s1 .unreachable (.reachable m1)
        timeout)).candidates.map Candidate.addr = [m1]
    ∧ (gather (twoServerCfg localA s2 s1 .unreachable (.reachable m1)
        timeout)).error = false := by
  refine ⟨?_, ?_, ?_, ?_, ?_, ?_, ?_⟩ <;>
    simp [gather, twoServerCfg, processServer, h1, h2, onBindingSuccess,
      dedupDiscards, mkSrflxCandidate, mkUnreachableEvent]

/-- C5 witness: the unit test's reachable `127.0.0.1:5000` together with
the unreachable `0.0.0.1:5000`. -/
theorem C5_bad_server_does_not_abort_sibling_witness :
    (gather (twoServerCfg kLocalAddr kStunAddr1 kBadAddr
        (.reachable ⟨.v4, "127.0.0.1", 0⟩) .unreachable
        9500)).candidates.map Candidate.addr = [⟨.v4, "127.0.0.1", 0⟩]
    ∧ (gather (twoServerCfg kLocalAddr kStunAddr1 kBadAddr
        (.reachable ⟨.v4, "127.0.0.1", 0⟩) .unreachable
        9500)).errorEvents.map ErrorEvent.url = [serverUrlOf "0.0.0.1" 5000] :=
  ⟨(C5_bad_server_does_not_abort_sibling kLocalAddr kStunAddr1 kBadAddr
      ⟨.v4, "127.0.0.1", 0⟩ 9500 rfl rfl).1,
   (C5_bad_server_does_not_abort_sibling kLocalAddr kStunAddr1 kBadAddr
      ⟨.v4, "127.0.0.1", 0⟩ 9500 rfl rfl).2.1⟩

/-- C6: the effective keepalive lifetime follows the network cost
classification: cellular gives the bounded 2-minute value, every other
adapter type gives the unbounded value `-1`, and switching the port's
network classification away from cellular updates the value back to
unbounded without recreating the port. -/
theorem C6_keepalive_lifetime_by_network_cost :
    stunKeepaliveLifetime ⟨.cellular⟩ = kHighCostPortKeepaliveLifetimeMs
    ∧ kHighCostPortKeepaliveLifetimeMs = 120000
    ∧ stunKeepaliveLifetime ⟨.unknown⟩ = kInfiniteLifetime
    ∧ stunKeepaliveLifetime ⟨.wifi⟩ = kInfiniteLifetime
    ∧ stunKeepaliveLifetime ⟨.ethernet⟩ = kInfiniteLifetime
    ∧ stunKeepaliveLifetime ⟨.loopback⟩ = kInfiniteLifetime
    ∧ kInfiniteLifetime = -1
    ∧ stunKeepaliveLifetime (setNetworkType ⟨.cellular⟩ .wifi)
      = kInfiniteLifetime
    ∧ stunKeepaliveLifetime (setNetworkType ⟨.wifi⟩ .cellular)
      = kHighCostPortKeepaliveLifetimeMs := by
  decide

/-- C7: after gathering completes, every further successful keepalive
Binding Response is consumed by the deduplicator and the candidate count
stays at its completion value for any number of keepalive rounds. -/
theorem C7_keepalive_response_no_new_candidate
    (localA s m : SocketAddr) (timeout : Nat)
    (hs : s.fam = localA.fam) (n : Nat) :
    (keepaliveRounds (oneServerCfg localA s (.reachable m) timeout) m
        (serverUrlOf s.host s.port)
        (gather (oneServerCfg localA s (.reachable m) timeout)).candidates
        n).length
      = (gather (oneServerCfg localA s (.reachable m)
          timeout)).candidates.length := by
  have hcand : (gather (oneServerCfg localA s (.reachable m)
      timeout)).candidates
      = [mkSrflxCandidate (oneServerCfg localA s (.reachable m) timeout) m
          (serverUrlOf s.host s.port)] := by
    simp [gather, oneServerCfg, processServer, hs, onBindingSuccess,
      dedupDiscards]
  rw [hcand, keepaliveRounds_of_discard]
  simp [dedupDiscards, mkSrflxCandidate, oneServerCfg, ipEq_self]

/-- C7 witness: three keepalive rounds after gathering against
`127.0.0.1:5000` leave the candidate count unchanged. -/
theorem C7_keepalive_response_no_new_candidate_witness :
    (keepaliveRounds (oneServerCfg kLocalAddr kStunAddr1
        (.reachable ⟨.v4, "127.0.0.1", 0⟩) 9500) ⟨.v4, "127.0.0.1", 0⟩
        (serverUrlOf "127.0.0.1" 5000)
        (gather (oneServerCfg kLocalAddr kStunAddr1
          (.reachable ⟨.v4, "127.0.0.1", 0⟩) 9500)).candidates 3).length
      = (gather (oneServerCfg kLocalAddr kStunAddr1
          (.reachable ⟨.v4, "127.0.0.1", 0⟩) 9500)).candidates.length :=
  C7_keepalive_response_no_new_candidate kLocalAddr kStunAddr1
    ⟨.v4, "127.0.0.1", 0⟩ 9500 rfl 3

/-- C8: once a finite keepalive lifetime budget is exhausted, no Binding
Request is pending any more and no error is raised; with the unbounded
default lifetime a Binding Request stays pending at every elapsed time. -/
theorem C8_keepalive_lifetime_budget
    (lifetime : Int) (elapsed : Nat)
    (hfin : 0 ≤ lifetime) (hexp : lifetime < (elapsed : Int)) :
    hasPendingBindingRequest lifetime elapsed = false
    ∧ keepaliveSchedulerRaisesError lifetime elapsed = false
    ∧ hasPendingBindingRequest kInfiniteLifetime elapsed = true := by
  refine ⟨?_, rfl, ?_⟩
  · simp [hasPendingBindingRequest, not_le.mpr hexp, not_lt.mpr hfin]
  · simp [hasPendingBindingRequest, kInfiniteLifetime]

/-- C8 witness: the unit test's finite lifetime of 100 ms checked 2000 ms
after completion. -/
theorem C8_keepalive_lifetime_budget_witness :
    hasPendingBindingRequest 100 2000 = false
    ∧ keepaliveSchedulerRaisesError 100 2000 = false
    ∧ hasPendingBindingRequest kInfiniteLifetime 2000 = true :=
  C8_keepalive_lifetime_budget 100 2000 (by decide) (by decide)

/-- C9: a hostname server yields exactly one DNS resolution request,
for the address family of the local bound address, and a successful
same-family resolution publishes one server-reflexive candidate with the
resolved mapped address. -/
theorem C9_hostname_resolution_family
    (localA m : SocketAddr) (hostname : String) (p timeout : Nat)
    (hm : m.fam = localA.fam) :
    (gather (hostnameCfg localA hostname p (.reachable m) false
        timeout)).resolveRequests = [(hostname, localA.fam)]
    ∧ (gather (hostnameCfg localA hostname p (.reachable m) false
        timeout)).candidates.map Candidate.ctype = [.srflx]
    ∧ (gather (hostnameCfg localA hostname p (.reachable m) false
        timeout)).candidates.map Candidate.addr = [m] := by
  refine ⟨?_, ?_, ?_⟩ <;>
    simp [gather, hostnameCfg, processServer, hm, onBindingSuccess,
      dedupDiscards, mkSrflxCandidate]

/-- C9 witness: the unit tests' `valid-hostname:5000` resolving to
`127.0.0.1:5000` for an IPv4 local address (an `AF_INET` request) and to
`::1:5000` for an IPv6 local address (an `AF_INET6` request). -/
theorem C9_hostname_resolution_family_witness :
    ((gather (hostnameCfg kLocalAddr "valid-hostname" 5000
        (.reachable ⟨.v4, "127.0.0.1", 5000⟩) false
        9500)).resolveRequests = [("valid-hostname", Fam.v4)]
      ∧ (gather (hostnameCfg kLocalAddr "valid-hostname" 5000
        (.reachable ⟨.v4, "127.0.0.1", 5000⟩) false
        9500)).candidates.map Candidate.ctype = [.srflx])
    ∧ ((gather (hostnameCfg kIPv6LocalAddr "valid-hostname" 5000
        (.reachable ⟨.v6, "::1", 5000⟩) false
        9500)).resolveRequests = [("valid-hostname", Fam.v6)]) :=
  ⟨⟨(C9_hostname_resolution_family kLocalAddr ⟨.v4, "127.0.0.1", 5000⟩
        "valid-hostname" 5000 9500 rfl).1,
    (C9_hostname_resolution_family kLocalAddr ⟨.v4, "127.0.0.1", 5000⟩
        "valid-hostname" 5000 9500 rfl).2.1⟩,
   (C9_hostname_resolution_family kIPv6LocalAddr ⟨.v6, "::1", 5000⟩
        "valid-hostname" 5000 9500 rfl).1⟩

/-- C10: the published server-reflexive candidate's priority is exactly
`(100 << 24) | (30 << 8) | (256 - 1)` for an IPv4 local address and
`(100 << 24) | (60 << 8) | (256 - 1)` for the IPv6 loopback local
address, each increased by exactly `kMaxTurnServers << 8` under the
`WebRTC-IncreaseIceCandidatePriorityHostSrflx` field trial. -/
theorem C10_srflx_priority_values :
    ((gather (hostnameCfg kLocalAddr "valid-hostname" 5000
        (.reachable ⟨.v4, "127.0.0.1", 5000⟩) false 9500)).candidates.map
        Candidate.priority = [kStunCandidatePriority])
    ∧ kStunCandidatePriority = (100 <<< 24) ||| (30 <<< 8) ||| (256 - 1)
    ∧ ((gather (hostnameCfg kIPv6LocalAddr "valid-hostname" 5000
        (.reachable ⟨.v6, "::1", 5000⟩) false 9500)).candidates.map
        Candidate.priority = [kIPv6StunCandidatePriority])
    ∧ kIPv6StunCandidatePriority = (100 <<< 24) ||| (60 <<< 8) ||| (256 - 1)
    ∧ ((gather (hostnameCfg kLocalAddr "valid-hostname" 5000
        (.reachable ⟨.v4, "127.0.0.1", 5000⟩) true 9500)).candidates.map
        Candidate.priority
      = [kStunCandidatePriority + (kMaxTurnServers <<< 8)])
    ∧ ((gather (hostnameCfg kIPv6LocalAddr "valid-hostname" 5000
        (.reachable ⟨.v6, "::1", 5000⟩) true 9500)).candidates.map
        Candidate.priority
      = [kIPv6StunCandidatePriority + (kMaxTurnServers <<< 8)]) := by
  refine ⟨?_, ?_, ?_, ?_, ?_, ?_⟩ <;> decide

end StunModel
